import Mathlib

/-!
Verification development for the CareerPath AI repository.

The frontend (React SPA) is embedded from the JavaScript sources:
`frontend/src/services/api.js`, the `CareerPathGenerator` form component,
`ResultCard.jsx` (current and older variant), `ErrorAlert` and
`LoadingSpinner`.  JavaScript values reaching the frontend are modelled
by a JSON-like inductive type; JSX output is modelled as a flat string
that records the rendered structure (presentational style constants are
dropped, the style *choice* made by the code is kept).

The backend orchestrator (Python, `api/`) is not part of the source
tree available here; where a claim depends on it, the relevant
definitions are modelled from the specification and are marked
`Modelled from the spec:` in their doc comments.
-/

/-- Whitespace trimming of a string from both ends — the spec's
"non-empty after trimming" notion (an executable model of JavaScript
`String.prototype.trim` / Python `str.strip`). -/
def trimWs (s : String) : String :=
  String.mk (((s.data.dropWhile Char.isWhitespace).reverse.dropWhile Char.isWhitespace).reverse)

/-- JSON-like values, modelling the JavaScript data that crosses the
frontend/backend boundary (the parsed result of `response.json()`). -/
inductive JsValue where
  | jsNull : JsValue
  | jsBool : Bool → JsValue
  | jsNum : Int → JsValue
  | jsStr : String → JsValue
  | jsArr : List JsValue → JsValue
  | jsObj : List (String × JsValue) → JsValue

/-- Optional-chaining property access `v?.field`: `undefined` (`none`) on
`null` and on non-objects, the first binding otherwise.  Translated from
the access pattern `errorData?.error?.message` in
`frontend/src/services/api.js`. -/
def JsValue.getField : JsValue → String → Option JsValue
  | .jsObj fields, name => fields.lookup name
  | _, _ => none

/-- JavaScript truthiness, as used by the `||` on line 11 of
`frontend/src/services/api.js`. -/
def jsTruthy : JsValue → Bool
  | .jsNull => false
  | .jsBool b => b
  | .jsNum n => n != 0
  | .jsStr s => s != ""
  | .jsArr _ => true
  | .jsObj _ => true

/-- The `String()` coercion applied by the `Error` constructor to its
message argument (arrays join their stringified elements with commas,
plain objects stringify to the fixed object tag). -/
def jsToString : JsValue → String
  | .jsNull => "null"
  | .jsBool b => if b then "true" else "false"
  | .jsNum n => toString n
  | .jsStr s => s
  | .jsArr xs => String.intercalate "," (xs.attach.map (fun x => jsToString x.1))
  | .jsObj _ => "[object Object]"
decreasing_by
  simp_wf
  have h := List.sizeOf_lt_of_mem x.2
  omega

/-- The fixed generic error message of `frontend/src/services/api.js`
line 11. -/
def genericMsg : String := "An unexpected error occurred while generating the path."

/-- The message of the `Error` thrown on a non-ok response: transcribes
`errorData?.error?.message || '...'` where `errorData` is the parsed body
or `null` when parsing failed (`.catch(() => null)`),
`frontend/src/services/api.js` lines 10-11. -/
def errorMessageFor (body : Option JsValue) : String :=
  let errorData : JsValue := body.getD .jsNull
  match errorData.getField "error" with
  | none => genericMsg
  | some e =>
    match e.getField "message" with
    | none => genericMsg
    | some m => if jsTruthy m then jsToString m else genericMsg

/-- An HTTP response as observed by the client: the `ok` flag and the
result of `response.json()` (`none` models a body that is not valid
JSON, on which `response.json()` rejects). -/
structure HttpResponse where
  ok : Bool
  body : Option JsValue

/-- Outcome of the client call: the parsed body is returned, or an
`Error` with a message is thrown, or the ok-path `response.json()`
itself rejects (a `SyntaxError`, whose message is engine specific). -/
inductive FetchOutcome where
  | success : JsValue → FetchOutcome
  | failure : String → FetchOutcome
  | parseFailure : FetchOutcome

/-- The frontend API client, translated from
`frontend/src/services/api.js` lines 1-15. -/
def generateCareerPath (r : HttpResponse) : FetchOutcome :=
  if r.ok then
    match r.body with
    | some j => .success j
    | none => .parseFailure
  else .failure (errorMessageFor r.body)

/-- Follows the SPEC's words (section 6): the error envelope carries
`kind` and `message` with `kind` one of the three error kinds; returns
the envelope's message when the value is such an envelope.  Written for
comparison with the client's actual extraction. -/
def errorKinds : List String := ["ValidationError", "AnalysisError", "InternalError"]

/-- Follows the SPEC's words (section 6): the message of a body that
parses as the `(kind, message)` error envelope. -/
def specEnvelopeMessage (j : JsValue) : Option String :=
  match j with
  | .jsObj fields =>
    match fields.lookup "kind", fields.lookup "message" with
    | some (.jsStr k), some (.jsStr m) =>
      if k ∈ errorKinds then some m else none
    | _, _ => none
  | _ => none

/-- A body that is exactly the spec's error envelope. -/
def envelopeBodyEx : JsValue :=
  .jsObj [("kind", .jsStr "ValidationError"), ("message", .jsStr "bad input")]

/-- A non-ok response carrying exactly the spec's error envelope as its
body. -/
def envelopeRespEx : HttpResponse := { ok := false, body := some envelopeBodyEx }

/-- A course object as consumed by `ResultCard.jsx`; every property of a
JavaScript object may be absent. -/
structure CourseJs where
  skill : Option String := none
  title : Option String := none
  url : Option String := none
  platform : Option String := none
  duration : Option String := none
  level : Option String := none

/-- A validation object as consumed by `ResultCard.jsx` (both the
per-snippet `validation` and the top-level `codeValidationResult`). -/
structure ValidationJs where
  skill : Option String := none
  status : Option String := none
  details : Option String := none
  output : Option String := none
  execution_time : Option String := none

/-- The `code_snippet` object of a skill entry, `ResultCard.jsx`
lines 54-93. -/
structure CodeSnippetJs where
  code : Option String := none
  description : Option String := none
  validation : Option ValidationJs := none

/-- One entry of `skillsWithCourses`, `ResultCard.jsx` lines 29-95. -/
structure SkillDataJs where
  skill : Option String := none
  courses : Option (List CourseJs) := none
  code_snippet : Option CodeSnippetJs := none

/-- The plan object destructured by the display components.  The current
`ResultCard.jsx` reads `title`, `skillsToLearn`, `skillsWithCourses` and
`codeValidationResult`; the older variant reads `recommendedCourses`
instead of `skillsWithCourses`.  `extra` stands for any further payload
fields, read by neither. -/
structure Plan where
  title : Option String := none
  skillsToLearn : Option (List String) := none
  skillsWithCourses : Option (List SkillDataJs) := none
  recommendedCourses : Option (List CourseJs) := none
  codeValidationResult : Option ValidationJs := none
  extra : List (String × String) := []

/-- JSX interpolation of a possibly-absent string: `undefined` and
`null` render as nothing. -/
def jsxText (v : Option String) : String := v.getD ""

/-- The JavaScript `x || dflt` idiom on a possibly-absent string: the
default is substituted for `undefined`, `null` and the empty string. -/
def jsOrText (v : Option String) (dflt : String) : String :=
  match v with
  | some s => if s == "" then dflt else s
  | none => dflt

/-- The course metadata line, `ResultCard.jsx` lines 44-47:
platform, then `duration || "N/A"`, then `level || "All Levels"`. -/
def courseMeta (c : CourseJs) : String :=
  jsxText c.platform ++ " • " ++ jsOrText c.duration "N/A" ++ " • " ++ jsOrText c.level "All Levels"

/-- One course link of the current card, `ResultCard.jsx` lines 34-50. -/
def renderCourse (c : CourseJs) : String :=
  "course(" ++ jsxText c.url ++ ")(" ++ jsxText c.title ++ ")(" ++ courseMeta c ++ ")"

/-- The style selected for a validation box:
`status === "Success" ? styles.validationSuccess : styles.validationError`,
`ResultCard.jsx` lines 68-71 and 104-106. -/
def validationBoxStyle (status : Option String) : String :=
  if status == some "Success" then "validationSuccess" else "validationError"

/-- The per-snippet validation box, `ResultCard.jsx` lines 64-91. -/
def renderSnippetValidation (v : ValidationJs) : String :=
  "validation(" ++ validationBoxStyle v.status ++ ")(" ++ jsxText v.status ++ ")("
    ++ jsxText v.execution_time ++ ")("
    ++ (match v.output with
        | none => ""
        | some o => if o == "" then "" else "output(" ++ o ++ ")")
    ++ ")(" ++ jsxText v.details ++ ")"

/-- The code-example block, `ResultCard.jsx` lines 54-93. -/
def renderCodeSnippet (cs : CodeSnippetJs) : String :=
  "code(" ++ jsxText cs.code ++ ")(" ++ jsxText cs.description ++ ")("
    ++ (match cs.validation with
        | none => ""
        | some v => renderSnippetValidation v)
    ++ ")"

/-- One skill section of the current card, `ResultCard.jsx`
lines 29-95. -/
def renderSkillData (sd : SkillDataJs) : String :=
  "skillSection(" ++ jsxText sd.skill ++ ")("
    ++ String.join ((sd.courses.getD []).map renderCourse)
    ++ ")("
    ++ (match sd.code_snippet with
        | none => ""
        | some cs => renderCodeSnippet cs)
    ++ ")"

/-- The overall validation section, `ResultCard.jsx` lines 98-120. -/
def renderOverallValidation (v : ValidationJs) : String :=
  "overallValidation(" ++ validationBoxStyle v.status ++ ")(" ++ jsxText v.skill ++ ")("
    ++ jsxText v.status ++ ")(" ++ jsxText v.details ++ ")"

/-- The title heading: `title || "Your Recommended Career Path"`,
`ResultCard.jsx` line 11. -/
def titlePart (p : Plan) : String :=
  "title(" ++ jsOrText p.title "Your Recommended Career Path" ++ ")"

/-- The skills list: `skillsToLearn && skillsToLearn.map(...)`,
`ResultCard.jsx` lines 16-23. -/
def skillsPart (p : Plan) : String :=
  "skillsToLearn(" ++ String.join ((p.skillsToLearn.getD []).map (fun s => "item(" ++ s ++ ")")) ++ ")"

/-- The courses section: `skillsWithCourses && skillsWithCourses.map(...)`,
`ResultCard.jsx` lines 28-95. -/
def coursesPart (p : Plan) : String :=
  "courses(" ++ String.join ((p.skillsWithCourses.getD []).map renderSkillData) ++ ")"

/-- The conditional overall-validation section:
`codeValidationResult && (...)`, `ResultCard.jsx` lines 98-120. -/
def overallValidationPart (p : Plan) : String :=
  match p.codeValidationResult with
  | none => ""
  | some v => renderOverallValidation v

/-- The current `ResultCard` component, `ResultCard.jsx` lines 3-123:
`if (!plan) return null`, then the four sections. -/
def renderResultCard (plan : Option Plan) : Option String :=
  match plan with
  | none => none
  | some p => some (titlePart p ++ skillsPart p ++ coursesPart p ++ overallValidationPart p)

/-- One course link of the older card variant: only `url` and `skill`
are read (`unnamed/part_002` lines 31-41). -/
def renderCourseLinkOld (c : CourseJs) : String :=
  "course(" ++ jsxText c.url ++ ")(" ++ jsxText c.skill ++ ")"

/-- The courses section of the older card variant, which maps over
`recommendedCourses` (`unnamed/part_002` lines 27-44). -/
def coursesPartOld (p : Plan) : String :=
  "courses(" ++ String.join ((p.recommendedCourses.getD []).map renderCourseLinkOld) ++ ")"

/-- The older `ResultCard` variant, `unnamed/part_002` lines 3-71:
destructures `title`, `skillsToLearn`, `recommendedCourses`,
`codeValidationResult`. -/
def renderResultCardOld (plan : Option Plan) : Option String :=
  match plan with
  | none => none
  | some p => some (titlePart p ++ skillsPart p ++ coursesPartOld p ++ overallValidationPart p)

/-- The `ErrorAlert` component: `if (!message) return null`, else the
alert box with the message (`ErrorAlert` source appended to
`FIX_WEAVIATE.md`). -/
def errorAlert (message : Option String) : Option String :=
  match message with
  | none => none
  | some m => if m == "" then none else some ("alert(" ++ m ++ ")")

/-- The submit-button gate of the `CareerPathGenerator` component,
`unnamed/part_001` line 31:
`!currentRole || !targetRole || isLoading` (JavaScript `!s` on a string
is true exactly for the empty string). -/
def isButtonDisabled (currentRole targetRole : String) (isLoading : Bool) : Bool :=
  currentRole == "" || targetRole == "" || isLoading

/-- The state of the `CareerPathGenerator` component,
`unnamed/part_001` lines 9-13. -/
structure ComponentState where
  currentRole : String
  targetRole : String
  plan : Option Plan
  isLoading : Bool
  error : String

/-- The `handleSubmit` handler, `unnamed/part_001` lines 15-29, as a
state transition given the settled result of the awaited
`generateCareerPath` call: first `setIsLoading(true)`, `setError("")`,
`setPlan(null)`; then `setPlan(result)` on success or
`setError(err.message)` on throw; finally `setIsLoading(false)`. -/
def handleSubmit (s : ComponentState) (result : Except String Plan) : ComponentState :=
  let s1 : ComponentState := { s with isLoading := true, error := "", plan := none }
  let s2 : ComponentState :=
    match result with
    | .ok p => { s1 with plan := some p }
    | .error msg => { s1 with error := msg }
  { s2 with isLoading := false }

/-- Modelled from the spec: the orchestrator's error taxonomy for the
two fatal kinds (spec sections 4.1 and 7); the backend orchestrator
source (`api/index.py` and its clients) is not under the available
source tree. -/
inductive OrchError where
  | validationError : String → OrchError
  | analysisError : String → OrchError

/-- Modelled from the spec: `TraceSpan` of the data model (section 3),
reduced to the fields the claims touch. -/
structure TraceSpan where
  traceId : Nat
  stageName : String
  startTime : Nat
  errorKind : Option String

/-- Modelled from the spec: `KnowledgeSnippet` of the data model
(section 3). -/
structure KnowledgeSnippet where
  title : String
  description : String
  category : String

/-- Modelled from the spec: `CourseResult` of the data model
(section 3). -/
structure CourseResult where
  skill : String
  title : String
  url : String
  platform : String
  duration : Option String
  level : Option String
deriving DecidableEq

/-- Modelled from the spec: `CodeSnippet` of the data model
(section 3). -/
structure CodeSnippet where
  skill : String
  language : String
  code : String
  description : String

/-- Modelled from the spec: the two values of `ValidationResult.status`
(section 3). -/
inductive VStatus where
  | success : VStatus
  | failure : VStatus
deriving DecidableEq

/-- The wire form of a validation status, as matched by the display
components (`"Success"` / `"Failure"`). -/
def VStatus.render : VStatus → String
  | .success => "Success"
  | .failure => "Failure"

/-- Modelled from the spec: `ValidationResult` of the data model
(section 3). -/
structure ValidationResult where
  status : VStatus
  output : String
  error : Option String
  executionTimeSeconds : Nat

/-- One entry of `skillsWithCourses`: a skill paired with its fetched
course list. -/
structure SkillCourses where
  skill : String
  courses : List CourseResult

/-- Modelled from the spec: `CareerPath`, the final response of the
orchestrator (section 3). -/
structure CareerPath where
  title : String
  skillsToLearn : List String
  skillsWithCourses : List SkillCourses
  codeValidationResult : ValidationResult

/-- Modelled from the spec: `CareerQuery` (section 3). -/
structure CareerQuery where
  currentRole : String
  targetRole : String

/-- Modelled from the spec: the Reasoning Client's tagged-variant
answer, `FinalAnswer | ToolCallRequested` (design note, section 9). -/
inductive AnalyzeOutcome where
  | finalAnswer : List String → AnalyzeOutcome
  | toolCallRequested : String → List (String × String) → AnalyzeOutcome

/-- Modelled from the spec: the Tool Gateway's typed result for the
single course-search tool (section 4.4). -/
structure ToolResult where
  courses : List CourseResult

/-- Modelled from the spec: the five external collaborators as
deterministic (pure) functions, which is the setting of the spec's
idempotence property (section 8). -/
structure Collaborators where
  retrieve : String → Except String (List KnowledgeSnippet)
  analyze : String → String → List KnowledgeSnippet → Except String AnalyzeOutcome
  resumeWithTool : String → String → List KnowledgeSnippet → ToolResult → Except String (List String)
  invokeTool : String → List (String × String) → Except String ToolResult
  generateSnippet : String → Except String CodeSnippet
  validate : CodeSnippet → Except String ValidationResult

/-- Modelled from the spec: the deterministic, pre-defined safe fallback
snippet substituted when code generation fails (section 4.1, stage 4). -/
def fallbackSnippet (skill : String) : CodeSnippet :=
  { skill := skill, language := "python",
    code := "print( hello from " ++ skill ++ " )",
    description := "Deterministic fallback example (code generation unavailable)" }

/-- Modelled from the spec: the Analyze stage with its single-round tool
loop (section 4.1, stage 2) — on a tool-call request the orchestrator
delegates to the Tool Gateway and feeds the result back into the same
reasoning turn before accepting a final answer. -/
def analyzeStage (c : Collaborators) (cur tgt : String) (ctx : List KnowledgeSnippet) :
    Except String (List String) :=
  match c.analyze cur tgt ctx with
  | .error e => .error e
  | .ok (.finalAnswer skills) => .ok skills
  | .ok (.toolCallRequested name args) =>
    let toolRes : ToolResult :=
      match c.invokeTool name args with
      | .ok t => t
      | .error _ => { courses := [] }
    c.resumeWithTool cur tgt ctx toolRes

/-- Modelled from the spec: the course-fetch fan-out (section 4.1,
stage 3) — one call per skill, each owning its own result slot, joined
positionally; a failed fetch yields an empty course list for that skill
only. -/
def fetchCourses (search : String → Except String (List CourseResult)) (skills : List String) :
    List SkillCourses :=
  skills.map (fun sk =>
    { skill := sk,
      courses :=
        match search sk with
        | .ok cs => cs
        | .error _ => [] })

/-- Modelled from the spec: the per-skill course search routed through
the Tool Gateway's single known tool (sections 4.4 and PRD story S4). -/
def skillSearch (c : Collaborators) (sk : String) : Except String (List CourseResult) :=
  match c.invokeTool "search_learning_content" [("skill", sk)] with
  | .ok t => .ok t.courses
  | .error e => .error e

/-- Modelled from the spec: the fallback validation result produced when
the Sandbox Validator is unavailable or times out (section 4.1,
stage 5). -/
def unavailableValidation : ValidationResult :=
  { status := .failure, output := "", error := some "validation unavailable",
    executionTimeSeconds := 0 }

/-- Modelled from the spec: the Retrieve stage (section 4.1, stage 1) —
on failure the error is swallowed and the pipeline continues with an
empty context. -/
def contextOf (c : Collaborators) (q : CareerQuery) : List KnowledgeSnippet :=
  match c.retrieve q.targetRole with
  | .ok snips => snips
  | .error _ => []

/-- Modelled from the spec: the Generate-code stage (section 4.1,
stage 4) — on failure the deterministic safe fallback snippet is
substituted. -/
def snippetFor (c : Collaborators) (topSkill : String) : CodeSnippet :=
  match c.generateSnippet topSkill with
  | .ok s => s
  | .error _ => fallbackSnippet topSkill

/-- Modelled from the spec: the Validate stage (section 4.1, stage 5) —
on sandbox failure a `Failure` validation result is produced rather than
an error. -/
def validationFor (c : Collaborators) (topSkill : String) : ValidationResult :=
  match c.validate (snippetFor c topSkill) with
  | .ok v => v
  | .error _ => unavailableValidation

/-- Modelled from the spec: the six-stage pipeline of
`GenerateCareerPath` (section 4.1) minus the trace side channel —
validation gate, retrieval with degraded-context fallback, load-bearing
analysis (an empty skill gap is malformed output), capping of the skill
gap at 3, deduplication before the course fan-out, code generation with
fallback, best-effort validation, assembly. -/
def runStages (c : Collaborators) (q : CareerQuery) : Except OrchError CareerPath :=
  if trimWs q.currentRole = "" ∨ trimWs q.targetRole = "" then
    .error (.validationError "both role strings must be non-empty")
  else
    match analyzeStage c q.currentRole q.targetRole (contextOf c q) with
    | .error e => .error (.analysisError e)
    | .ok rawSkills =>
      if rawSkills = [] then .error (.analysisError "malformed output: empty skill gap")
      else
        .ok { title := "Your Path from " ++ q.currentRole ++ " to " ++ q.targetRole,
              skillsToLearn := rawSkills.take 3,
              skillsWithCourses := fetchCourses (skillSearch c) (rawSkills.take 3).eraseDups,
              codeValidationResult := validationFor c ((rawSkills.take 3).headD "") }

/-- Modelled from the spec: the trace side channel (sections 4.1 and
4.6) — one span per stage under the request-scoped trace id, carrying
its own start time, recorded whether or not the stage's error was
swallowed. -/
def stageSpans (c : Collaborators) (traceId : Nat) (clock : Nat → Nat) (q : CareerQuery) :
    List TraceSpan :=
  let retrieveErr : Option String :=
    match c.retrieve q.targetRole with
    | .ok _ => none
    | .error e => some e
  let analyzeErr : Option String :=
    match analyzeStage c q.currentRole q.targetRole (contextOf c q) with
    | .ok _ => none
    | .error e => some e
  [ { traceId := traceId, stageName := "retrieve", startTime := clock 0, errorKind := retrieveErr },
    { traceId := traceId, stageName := "analyze", startTime := clock 1, errorKind := analyzeErr } ]

/-- Modelled from the spec: `GenerateCareerPath(query) -> (CareerPath, error)`
(section 4.1), with the request-scoped trace id and a clock threaded in
as the only non-deterministic inputs. -/
def GenerateCareerPath (c : Collaborators) (traceId : Nat) (clock : Nat → Nat) (q : CareerQuery) :
    Except OrchError (CareerPath × List TraceSpan) :=
  (runStages c q).map (fun path => (path, stageSpans c traceId clock q))

/-- Deterministic demonstration collaborators (the spec's mocked
collaborators of section 8). -/
def demoCollaborators : Collaborators :=
  { retrieve := fun _ => .ok [],
    analyze := fun _ _ _ =>
      .ok (.finalAnswer ["Python", "ML Fundamentals", "Data Structures"]),
    resumeWithTool := fun _ _ _ _ => .ok ["Python"],
    invokeTool := fun _ _ => .ok { courses := [] },
    generateSnippet := fun sk => .ok (fallbackSnippet sk),
    validate := fun _ =>
      .ok { status := .success, output := "ok", error := none, executionTimeSeconds := 1 } }

/-- The spec's end-to-end example query (section 8). -/
def demoQuery : CareerQuery :=
  { currentRole := "Frontend Developer", targetRole := "Machine Learning Engineer" }

/-- A per-skill course search whose call for the middle skill fails and
whose other calls return one course each. -/
def demoSearch : String → Except String (List CourseResult) :=
  fun sk =>
    if sk = "ML Fundamentals" then .error "timeout"
    else .ok [{ skill := sk, title := "Course for " ++ sk, url := "https://example.org",
                platform := "YouTube", duration := none, level := none }]

/-- The spec's fixed three-skill gap (section 8). -/
def demoSkills : List String := ["Python", "ML Fundamentals", "Data Structures"]

/-- A minimal plan object with no fields set. -/
def planBase : Plan := {}

/-- `planBase` with only `title` set. -/
def planTitled : Plan := { title := some "T" }

/-- `planBase` with only `skillsToLearn` set. -/
def planSkills : Plan := { skillsToLearn := some ["Python"] }

/-- `planBase` with only `skillsWithCourses` set. -/
def planWithCourses : Plan := { skillsWithCourses := some [{}] }

/-- `planBase` with only `codeValidationResult` set. -/
def planVal : Plan := { codeValidationResult := some {} }

/-- `planBase` with only `recommendedCourses` set. -/
def planRec : Plan := { recommendedCourses := some [{}] }

/-- A concrete component state for witnesses. -/
def stateEx : ComponentState :=
  { currentRole := "Frontend Developer", targetRole := "Machine Learning Engineer",
    plan := none, isLoading := false, error := "" }

/-- A concrete course object, with platform but no duration and no
level. -/
def courseEx : CourseJs := { platform := some "YouTube" }

/-- Claim C1, counterexample: a whitespace-only current role is empty
after trimming, yet the submit gate does not block submission — the
gate tests the untrimmed strings. -/
theorem submitGate_whitespace_counterexample :
    trimWs " " = "" ∧
    isButtonDisabled " " "Machine Learning Engineer" false = false := by
  exact ⟨by decide, rfl⟩

/-- Claim C1 (amended): the submit gate blocks submission exactly when
one of the role strings is the empty string (untrimmed) or a request is
in flight; whitespace-only role strings pass the gate. -/
theorem submitGate_blocks_empty_untrimmed (c t : String) (l : Bool) :
    isButtonDisabled "" t l = true ∧
    isButtonDisabled c "" l = true ∧
    (isButtonDisabled c t l = false ↔ (c ≠ "" ∧ t ≠ "" ∧ l = false)) := by
  refine ⟨rfl, ?_, ?_⟩
  · simp [isButtonDisabled]
  · simp [isButtonDisabled, and_assoc]

/-- Witness for the amended C1 theorem at concrete non-empty roles. -/
theorem submitGate_blocks_empty_untrimmed_witness :
    isButtonDisabled "Frontend Developer" "Data Scientist" false = false :=
  (submitGate_blocks_empty_untrimmed "Frontend Developer" "Data Scientist" false).2.2.mpr
    ⟨by decide, by decide, rfl⟩

/-- Claim C3: after `handleSubmit` settles, `isLoading` is false on
every exit path, and exactly one of `plan` and `error` is set — the
plan on success (with the error cleared), a non-empty error message on
failure (with the plan cleared) — given that the thrown message is
non-empty, which holds for every structured error the client raises. -/
theorem handleSubmit_single_outcome (s : ComponentState) (r : Except String Plan)
    (hmsg : ∀ m, r = .error m → m ≠ "") :
    (handleSubmit s r).isLoading = false ∧
    ((∃ p, r = .ok p ∧ (handleSubmit s r).plan = some p ∧ (handleSubmit s r).error = "") ∨
     ((handleSubmit s r).plan = none ∧ (handleSubmit s r).error ≠ "")) := by
  cases r with
  | ok p => exact ⟨rfl, .inl ⟨p, rfl, rfl, rfl⟩⟩
  | error m => exact ⟨rfl, .inr ⟨rfl, hmsg m rfl⟩⟩

/-- Witness for the C3 theorem at a concrete state and a successful
result. -/
theorem handleSubmit_single_outcome_witness :
    (handleSubmit stateEx (Except.ok planBase)).isLoading = false ∧
    ((∃ p, (Except.ok planBase : Except String Plan) = Except.ok p ∧
        (handleSubmit stateEx (Except.ok planBase)).plan = some p ∧
        (handleSubmit stateEx (Except.ok planBase)).error = "") ∨
     ((handleSubmit stateEx (Except.ok planBase)).plan = none ∧
       (handleSubmit stateEx (Except.ok planBase)).error ≠ "")) :=
  handleSubmit_single_outcome stateEx (Except.ok planBase) (fun _ h => nomatch h)

/-- Claim C10: a course without a `duration` field is rendered with the
fixed default `N/A`, and a course without a `level` field with the fixed
default `All Levels`; the metadata line is produced totally in both
cases. -/
theorem courseMeta_defaults (c : CourseJs) :
    (c.duration = none →
      courseMeta c = jsxText c.platform ++ " • " ++ "N/A" ++ " • " ++ jsOrText c.level "All Levels") ∧
    (c.level = none →
      courseMeta c = jsxText c.platform ++ " • " ++ jsOrText c.duration "N/A" ++ " • " ++ "All Levels") := by
  constructor <;> intro h <;> simp [courseMeta, jsOrText, h]

/-- Witness for the C10 theorem at a concrete course lacking both
optional fields. -/
theorem courseMeta_defaults_witness :
    courseMeta courseEx =
      jsxText courseEx.platform ++ " • " ++ "N/A" ++ " • " ++ jsOrText courseEx.level "All Levels" :=
  (courseMeta_defaults courseEx).1 rfl

/-- Claim C9: the display components are total on missing input —
`ResultCard` on a null plan renders nothing, `ErrorAlert` on an absent
or empty message renders nothing, and a plan missing `skillsToLearn`,
`skillsWithCourses` or `codeValidationResult` still renders, with the
affected section empty or omitted. -/
theorem display_total_on_missing :
    renderResultCard none = none ∧
    errorAlert none = none ∧
    errorAlert (some "") = none ∧
    (∀ p : Plan, (renderResultCard (some p)).isSome = true) ∧
    (∀ p : Plan, p.skillsToLearn = none →
      renderResultCard (some p) = renderResultCard (some { p with skillsToLearn := some [] })) ∧
    (∀ p : Plan, p.skillsWithCourses = none →
      renderResultCard (some p) = renderResultCard (some { p with skillsWithCourses := some [] })) ∧
    (∀ p : Plan, p.codeValidationResult = none →
      renderResultCard (some p) = some (titlePart p ++ skillsPart p ++ coursesPart p)) := by
  refine ⟨rfl, rfl, rfl, ?_, ?_, ?_, ?_⟩
  · intro p; rfl
  · intro p h
    simp [renderResultCard, titlePart, skillsPart, coursesPart, overallValidationPart, h]
  · intro p h
    simp [renderResultCard, titlePart, skillsPart, coursesPart, overallValidationPart, h]
  · intro p h
    simp [renderResultCard, overallValidationPart, h]

/-- Witness for the C9 theorem at a concrete plan with every optional
field absent. -/
theorem display_total_on_missing_witness :
    (renderResultCard (some planBase)).isSome = true ∧
    renderResultCard (some planBase) = renderResultCard (some { planBase with skillsToLearn := some [] }) :=
  ⟨display_total_on_missing.2.2.2.1 planBase,
   display_total_on_missing.2.2.2.2.1 planBase rfl⟩

/-- Claim C7: a validation status takes only the two wire values
`Success` and `Failure`, and the result display applies the success
styling to a validation box exactly when the status string equals
`Success`; every other status value, in particular `Failure` and an
absent status, gets the failure styling. -/
theorem validation_status_success_iff :
    (∀ v : VStatus, VStatus.render v = "Success" ∨ VStatus.render v = "Failure") ∧
    (∀ s : String, validationBoxStyle (some s) = "validationSuccess" ↔ s = "Success") ∧
    (∀ s : String, s ≠ "Success" → validationBoxStyle (some s) = "validationError") ∧
    validationBoxStyle (some (VStatus.render .failure)) = "validationError" ∧
    validationBoxStyle none = "validationError" := by
  refine ⟨?_, ?_, ?_, rfl, rfl⟩
  · intro v
    cases v
    · exact .inl rfl
    · exact .inr rfl
  · intro s
    constructor
    · intro h
      by_contra hne
      simp [validationBoxStyle, hne] at h
    · intro h
      simp [validationBoxStyle, h]
  · intro s h
    simp [validationBoxStyle, h]

/-- Witness for the C7 theorem at the concrete status `Failure`. -/
theorem validation_status_success_iff_witness :
    validationBoxStyle (some "Failure") = "validationError" :=
  validation_status_success_iff.2.2.1 "Failure" (by decide)

/-- Claim C4: the current result display reads exactly the fields
`title`, `skillsToLearn`, `skillsWithCourses` and `codeValidationResult`
of the plan (its output is invariant under any change to other fields,
and genuinely depends on each of the four), while the older display
variant reads `recommendedCourses` instead of `skillsWithCourses`. -/
theorem resultCard_reads_exact_fields :
    (∀ p q : Plan, p.title = q.title → p.skillsToLearn = q.skillsToLearn →
      p.skillsWithCourses = q.skillsWithCourses → p.codeValidationResult = q.codeValidationResult →
      renderResultCard (some p) = renderResultCard (some q)) ∧
    (∀ p q : Plan, p.title = q.title → p.skillsToLearn = q.skillsToLearn →
      p.recommendedCourses = q.recommendedCourses → p.codeValidationResult = q.codeValidationResult →
      renderResultCardOld (some p) = renderResultCardOld (some q)) ∧
    renderResultCard (some planTitled) ≠ renderResultCard (some planBase) ∧
    renderResultCard (some planSkills) ≠ renderResultCard (some planBase) ∧
    renderResultCard (some planWithCourses) ≠ renderResultCard (some planBase) ∧
    renderResultCard (some planVal) ≠ renderResultCard (some planBase) ∧
    renderResultCard (some planRec) = renderResultCard (some planBase) ∧
    renderResultCardOld (some planRec) ≠ renderResultCardOld (some planBase) ∧
    renderResultCardOld (some planWithCourses) = renderResultCardOld (some planBase) := by
  refine ⟨?_, ?_, ?_, ?_, ?_, ?_, rfl, ?_, rfl⟩
  · intro p q h1 h2 h3 h4
    simp [renderResultCard, titlePart, skillsPart, coursesPart, overallValidationPart, h1, h2, h3, h4]
  · intro p q h1 h2 h3 h4
    simp [renderResultCardOld, titlePart, skillsPart, coursesPartOld, overallValidationPart, h1, h2, h3, h4]
  all_goals decide

/-- Witness for the C4 theorem: two concrete plans agreeing on the four
read fields render identically under the current card. -/
theorem resultCard_reads_exact_fields_witness :
    renderResultCard (some planBase) = renderResultCard (some planRec) :=
  resultCard_reads_exact_fields.1 planBase planRec rfl rfl rfl rfl

/-- Claim C5, counterexample: a non-ok response whose body is exactly
the spec's `(kind, message)` error envelope is thrown with the fixed
generic message, not with the envelope's message — the client only ever
reads `body.error.message` and never inspects `kind`. -/
theorem fetch_error_envelope_counterexample :
    specEnvelopeMessage envelopeBodyEx = some "bad input" ∧
    generateCareerPath envelopeRespEx = .failure genericMsg ∧
    genericMsg ≠ "bad input" := by
  refine ⟨rfl, rfl, by decide⟩

/-- Claim C5 (amended): the client returns the parsed body exactly when
the response is ok and the body parses (an ok response with an
unparseable body rejects with a parse error instead of returning); for
every non-ok response it throws an Error whose message is the stringified
value at the body's `error.message` path when that value is present and
truthy, and the fixed generic message when the path is absent or its
value falsy — the envelope's `kind` is never inspected. -/
theorem fetch_amended (r : HttpResponse) :
    (∀ j, r.body = some j → (generateCareerPath r = .success j ↔ r.ok = true)) ∧
    (r.ok = true → r.body = none → generateCareerPath r = .parseFailure) ∧
    (r.ok = false → ∀ m,
      ((r.body.getD .jsNull).getField "error").bind (fun e => e.getField "message") = some m →
      jsTruthy m = true → generateCareerPath r = .failure (jsToString m)) ∧
    (r.ok = false → ∀ m,
      ((r.body.getD .jsNull).getField "error").bind (fun e => e.getField "message") = some m →
      jsTruthy m = false → generateCareerPath r = .failure genericMsg) ∧
    (r.ok = false →
      ((r.body.getD .jsNull).getField "error").bind (fun e => e.getField "message") = none →
      generateCareerPath r = .failure genericMsg) := by
  obtain ⟨ok, body⟩ := r
  refine ⟨?_, ?_, ?_, ?_, ?_⟩
  · intro j hj
    have hb : body = some j := hj
    cases ok
    · simp [generateCareerPath]
    · simp [generateCareerPath, hb]
  · intro hok hb
    subst hok
    have hb2 : body = none := hb
    simp [generateCareerPath, hb2]
  · intro hok m hm ht
    subst hok
    simp only [generateCareerPath, Bool.false_eq_true, if_false]
    cases he : (body.getD .jsNull).getField "error" with
    | none => simp [he] at hm
    | some e =>
      cases hme : e.getField "message" with
      | none => simp [he, hme] at hm
      | some m2 =>
        simp [he, hme] at hm
        subst hm
        simp [errorMessageFor, he, hme, ht]
  · intro hok m hm ht
    subst hok
    simp only [generateCareerPath, Bool.false_eq_true, if_false]
    cases he : (body.getD .jsNull).getField "error" with
    | none => simp [he] at hm
    | some e =>
      cases hme : e.getField "message" with
      | none => simp [he, hme] at hm
      | some m2 =>
        simp [he, hme] at hm
        subst hm
        simp [errorMessageFor, he, hme, ht]
  · intro hok hm
    subst hok
    simp only [generateCareerPath, Bool.false_eq_true, if_false]
    cases he : (body.getD .jsNull).getField "error" with
    | none => simp [errorMessageFor, he]
    | some e =>
      cases hme : e.getField "message" with
      | none => simp [errorMessageFor, he, hme]
      | some m2 => simp [he, hme] at hm

/-- Witness for the amended C5 theorem at a concrete non-ok response
carrying a nested error object, whose message the client extracts. -/
theorem fetch_amended_witness :
    generateCareerPath
      { ok := false,
        body := some (.jsObj [("error", .jsObj [("message", .jsStr "boom")])]) } =
      .failure (jsToString (.jsStr "boom")) :=
  (fetch_amended
      { ok := false,
        body := some (.jsObj [("error", .jsObj [("message", .jsStr "boom")])]) }).2.2.1
    rfl (.jsStr "boom") rfl rfl

/-- Claim C2: for every valid query (both roles non-empty after
trimming) and a reachable Reasoning collaborator (the Analyze stage
yields a non-empty skill list on any context), `GenerateCareerPath`
returns a `CareerPath` whose `skillsToLearn` is non-empty and has
length at most 3. -/
theorem generateCareerPath_skill_bounds (c : Collaborators) (traceId : Nat) (clock : Nat → Nat)
    (q : CareerQuery) (hcur : trimWs q.currentRole ≠ "") (htgt : trimWs q.targetRole ≠ "")
    (hreach : ∀ ctx : List KnowledgeSnippet,
      ∃ skills, analyzeStage c q.currentRole q.targetRole ctx = Except.ok skills ∧ skills ≠ []) :
    ∃ path spans, GenerateCareerPath c traceId clock q = Except.ok (path, spans) ∧
      path.skillsToLearn ≠ [] ∧ path.skillsToLearn.length ≤ 3 := by
  unfold GenerateCareerPath runStages
  rw [if_neg (not_or.mpr ⟨hcur, htgt⟩)]
  obtain ⟨skills, hA, hne⟩ := hreach (contextOf c q)
  simp only [hA, if_neg hne]
  refine ⟨_, _, rfl, ?_, ?_⟩
  · show skills.take 3 ≠ []
    cases skills with
    | nil => exact absurd rfl hne
    | cons a l => simp
  · show (skills.take 3).length ≤ 3
    simp [List.length_take]

/-- Witness for the C2 theorem at the spec's example query against the
deterministic demonstration collaborators. -/
theorem generateCareerPath_skill_bounds_witness :
    ∃ path spans,
      GenerateCareerPath demoCollaborators 0 (fun _ => 0) demoQuery = Except.ok (path, spans) ∧
      path.skillsToLearn ≠ [] ∧ path.skillsToLearn.length ≤ 3 :=
  generateCareerPath_skill_bounds demoCollaborators 0 (fun _ => 0) demoQuery
    (by decide) (by decide)
    (fun _ => ⟨["Python", "ML Fundamentals", "Data Structures"], rfl, by decide⟩)

/-- Claim C6: in the course-fetch fan-out, when the call for one skill
fails and every other call succeeds with a non-empty course list, the
failed skill maps to an empty course list while each other skill keeps
exactly the list its own call returned — one failure neither cancels nor
empties any other slot. -/
theorem courseFetch_isolation (search : String → Except String (List CourseResult))
    (skills : List String) (i : Nat) (hi : i < skills.length)
    (hri : i < (fetchCourses search skills).length)
    (hfail : ∃ e, search skills[i] = Except.error e)
    (hok : ∀ j, ∀ hj : j < skills.length, j ≠ i →
      ∃ cs, search skills[j] = Except.ok cs ∧ cs ≠ []) :
    ((fetchCourses search skills)[i]).courses = [] ∧
    ∀ j, ∀ hj : j < skills.length, ∀ hrj : j < (fetchCourses search skills).length, j ≠ i →
      ((fetchCourses search skills)[j]).courses ≠ [] ∧
      ∀ cs, search skills[j] = Except.ok cs → ((fetchCourses search skills)[j]).courses = cs := by
  constructor
  · obtain ⟨e, he⟩ := hfail
    simp [fetchCourses, List.getElem_map, he]
  · intro j hj hrj hne
    obtain ⟨cs, hcs, hcsne⟩ := hok j hj hne
    constructor
    · simp [fetchCourses, List.getElem_map, hcs]
      exact hcsne
    · intro cs2 hcs2
      simp [fetchCourses, List.getElem_map, hcs2]

/-- Witness for the C6 theorem: with the spec's three-skill gap and a
search failing only on the middle skill, slot 1 is empty and slots 0 and
2 are not. -/
theorem courseFetch_isolation_witness :
    ((fetchCourses demoSearch demoSkills).get ⟨1, by decide⟩).courses = [] ∧
    ((fetchCourses demoSearch demoSkills).get ⟨0, by decide⟩).courses ≠ [] ∧
    ((fetchCourses demoSearch demoSkills).get ⟨2, by decide⟩).courses ≠ [] := by
  have hok : ∀ j, ∀ hj : j < demoSkills.length, j ≠ 1 →
      ∃ cs, demoSearch demoSkills[j] = Except.ok cs ∧ cs ≠ [] := by
    intro j hj hne
    have hj3 : j < 3 := by simpa [demoSkills] using hj
    interval_cases j
    · exact ⟨_, rfl, by simp⟩
    · exact absurd rfl hne
    · exact ⟨_, rfl, by simp⟩
  have h := courseFetch_isolation demoSearch demoSkills 1 (by decide) (by decide)
    ⟨"timeout", rfl⟩ hok
  exact ⟨h.1, (h.2 0 (by decide) (by decide) (by decide)).1,
    (h.2 2 (by decide) (by decide) (by decide)).1⟩

/-- Claim C8: with deterministic collaborators, two invocations of
`GenerateCareerPath` on identical input — even under different trace ids
and clocks, the non-deterministic inputs — yield identical
`skillsToLearn` and identical `codeValidationResult.status`. -/
theorem generateCareerPath_stable_fields (c : Collaborators) (q : CareerQuery)
    (t1 t2 : Nat) (clk1 clk2 : Nat → Nat) :
    (GenerateCareerPath c t1 clk1 q).map
        (fun r => (r.1.skillsToLearn, r.1.codeValidationResult.status)) =
      (GenerateCareerPath c t2 clk2 q).map
        (fun r => (r.1.skillsToLearn, r.1.codeValidationResult.status)) := by
  unfold GenerateCareerPath
  cases runStages c q <;> rfl
